import Mathlib

/-!
Shallow embedding of `src/main.py` (a minimal CLI chat client: config
loading from environment variables, a CLI dispatcher, one-shot and
interactive execution modes over an external agent framework).

Modelling conventions:
* The process environment (after `load_dotenv()` has merged the `.env`
  file) is a partial map `Env := String → Option String`; `os.getenv`
  with and without a default is modelled on top of it.
* Python string helpers used by the source (`str.strip`, `str.lower`,
  `str.rstrip("/")`, truthiness, the `x or y` idiom on strings) are
  modelled over ASCII inputs; Python's extra Unicode behaviour is out of
  scope for the configuration strings involved.
* Python's `float(...)` and `int(...)` string conversions are modelled
  as partial parsers returning `Option`. Float values are represented
  exactly (as rationals, plus infinity/NaN constructors) rather than as
  IEEE values: the claims only concern *which* value is selected, never
  float rounding.
* The external agent framework is abstracted by a function
  `A : String → AgentResult`: submitting a turn with input `s` yields
  `A s`, a result carrying an optional `content` field and a string
  representation (`str(result)`); `getattr(result, "content", str(result))`
  becomes `extractReply`.
* Observable behaviour (agent construction, turn submission, printed
  lines) is recorded as a trace of `Effect`s, and the process exit
  status as a `Nat` (0 = success). Interactive standard input is a list
  of `InputEvent`s; an exhausted list behaves like end-of-input
  (`input()` raising `EOFError` on a closed stdin).
-/

/-- Characters stripped by Python `str.strip()` (ASCII whitespace). -/
def isPySpace (c : Char) : Bool :=
  c = ' ' || c = '\t' || c = '\n' || c = '\r' || c = '\x0b' || c = '\x0c'

/-- Model of `str.strip()` on a character list. -/
def pyStripList (l : List Char) : List Char :=
  ((l.dropWhile isPySpace).reverse.dropWhile isPySpace).reverse

/-- Model of Python `s.strip()`. -/
def pyStrip (s : String) : String :=
  String.mk (pyStripList s.data)

/-- Model of Python `s.lower()` (ASCII). -/
def pyLower (s : String) : String :=
  String.mk (s.data.map Char.toLower)

/-- Model of Python `s.rstrip("/")`: remove trailing slash characters. -/
def pyRstripSlash (s : String) : String :=
  String.mk (s.data.reverse.dropWhile (fun c => c = '/')).reverse

/-- Model of Python `a or b` for an optional string `a` (the `os.getenv(k) or d`
idiom): a missing or empty (falsy) value selects the default. -/
def pyOr (a : Option String) (b : String) : String :=
  match a with
  | none => b
  | some s => if s = "" then b else s

/-- The process environment after `load_dotenv()`. -/
def Env : Type := String → Option String

/-- Model of `os.getenv(key, default)`. -/
def getenvD (env : Env) (key dflt : String) : String :=
  (env key).getD dflt

/-- A maximal run of digits and underscores (the raw material of one
digit group in Python numeric literals), together with the rest. -/
def takeDigitsU (l : List Char) : List Char × List Char :=
  (l.takeWhile (fun c => c.isDigit || c = '_'),
   l.dropWhile (fun c => c.isDigit || c = '_'))

/-- A valid Python digit group: non-empty, starts and ends with a digit,
and every underscore sits between two digits (no doubled underscores). -/
def validDigitGroup (g : List Char) : Bool :=
  !g.isEmpty
    && (match g.head? with | some c => c.isDigit | none => false)
    && (match g.getLast? with | some c => c.isDigit | none => false)
    && ((g.zip g.tail).all fun p => !(p.1 = '_' && p.2 = '_'))

/-- Numeric value of a digit group (underscores ignored). -/
def digitsVal (g : List Char) : Nat :=
  (g.filter Char.isDigit).foldl (fun a c => 10 * a + (c.toNat - 48)) 0

/-- Number of digits in a digit group (underscores ignored). -/
def numDigits (g : List Char) : Nat :=
  (g.filter Char.isDigit).length

/-- Result of Python `float(...)`: an exact rational stands in for the
finite doubles (rounding is irrelevant to the claims), plus the signed
infinities and NaN that `float("inf")` / `float("nan")` produce. -/
inductive PyFloat
  | finite (q : ℚ)
  | inf (neg : Bool)
  | nan
deriving DecidableEq, Repr

/-- Leading sign of a Python numeric string. -/
def pySign : List Char → Bool × List Char
  | '-' :: r => (true, r)
  | '+' :: r => (false, r)
  | r => (false, r)

/-- Assemble the finite float value from sign, integer-part group,
fraction-part group and (signed) decimal exponent. -/
def mkFloatVal (neg : Bool) (ig fg : List Char) (e : ℤ) : PyFloat :=
  let mant : ℚ := (digitsVal ig : ℚ) + (digitsVal fg : ℚ) / (10 : ℚ) ^ (numDigits fg)
  let v : ℚ := mant * (10 : ℚ) ^ e
  PyFloat.finite (if neg then -v else v)

/-- Model of Python `float(s)` on a string, as a partial parser: optional
whitespace and sign, then `inf`/`infinity`/`nan` (case-insensitive) or a
decimal literal `digits [. digits] [(e|E) [sign] digits]` with at least
one digit, underscores permitted between digits; anything else raises
`ValueError`, modelled as `none`. -/
def pyFloat (s : String) : Option PyFloat :=
  let l := pyStripList s.data
  let (neg, l1) := pySign l
  let lowered := l1.map Char.toLower
  if lowered = "inf".data || lowered = "infinity".data then
    some (PyFloat.inf neg)
  else if lowered = "nan".data then
    some PyFloat.nan
  else
    let (ig, r1) := takeDigitsU l1
    if !ig.isEmpty && !validDigitGroup ig then none
    else
      let (fg, r2) :=
        match r1 with
        | '.' :: rr => takeDigitsU rr
        | _ => ([], r1)
      let hasDot : Bool := match r1 with | '.' :: _ => true | _ => false
      if !fg.isEmpty && !validDigitGroup fg then none
      else if numDigits ig + numDigits fg = 0 then none
      else
        let r2' := if hasDot then r2 else r1
        match r2' with
        | 'e' :: rr | 'E' :: rr =>
          let (eneg, rr1) := pySign rr
          let (eg, r3) := takeDigitsU rr1
          if validDigitGroup eg && r3.isEmpty then
            some (mkFloatVal neg ig fg
              (if eneg then -(digitsVal eg : ℤ) else (digitsVal eg : ℤ)))
          else none
        | [] => some (mkFloatVal neg ig fg 0)
        | _ => none

/-- Model of Python `int(s)` on a string (base 10), as a partial parser: optional
whitespace and sign, then a digit group (underscores between digits);
anything else raises `ValueError`, modelled as `none`. -/
def pyInt (s : String) : Option Int :=
  let l := pyStripList s.data
  let (neg, l1) := pySign l
  let (g, r) := takeDigitsU l1
  if validDigitGroup g && r.isEmpty then
    some (if neg then -(digitsVal g : ℤ) else (digitsVal g : ℤ))
  else none

/-! ## Configuration resolution (src/main.py lines 25-48) -/

/-- Source line 25: `GOOGLE_API_KEY = os.getenv("GOOGLE_API_KEY", "").strip()`. -/
def GOOGLE_API_KEY (env : Env) : String :=
  pyStrip (getenvD env "GOOGLE_API_KEY" "")

/-- Source line 26: `MODEL_NAME = (os.getenv("GOOGLE_MODEL") or "gemini-2.0-flash").strip()`. -/
def MODEL_NAME (env : Env) : String :=
  pyStrip (pyOr (env "GOOGLE_MODEL") "gemini-2.0-flash")

/-- Source lines 27-28: `BASE_URL = (os.getenv("GOOGLE_OPENAI_COMPAT_BASE_URL") or
"https://generativelanguage.googleapis.com/v1beta/openai").rstrip("/")`. -/
def BASE_URL (env : Env) : String :=
  pyRstripSlash (pyOr (env "GOOGLE_OPENAI_COMPAT_BASE_URL")
    "https://generativelanguage.googleapis.com/v1beta/openai")

/-- The default system prompt literal (the two adjacent Python string
literals concatenate into one). -/
def DEFAULT_SYSTEM_PROMPT : String :=
  "You are a concise, helpful chatbot for BotCampus.ai. Answer briefly, use plain English, and include code blocks when helpful."

/-- Source line 30: `SYSTEM_PROMPT = os.getenv("SYSTEM_PROMPT") or (...)`. Note: no
`.strip()` is applied to this field in the source. -/
def SYSTEM_PROMPT (env : Env) : String :=
  pyOr (env "SYSTEM_PROMPT") DEFAULT_SYSTEM_PROMPT

/-- Source lines 36-39: `try: TEMPERATURE = float(os.getenv("TEMPERATURE", "0.3"))
except ValueError: TEMPERATURE = 0.3`. -/
def TEMPERATURE (env : Env) : PyFloat :=
  (pyFloat (getenvD env "TEMPERATURE" "0.3")).getD (PyFloat.finite (3 / 10))

/-- Source lines 41-44: `try: MAX_TOKENS = int(os.getenv("MAX_TOKENS", "1024"))
except ValueError: MAX_TOKENS = 1024`. -/
def MAX_TOKENS (env : Env) : Int :=
  (pyInt (getenvD env "MAX_TOKENS" "1024")).getD 1024

/-- The immutable process-wide configuration, resolved once at startup. -/
structure Config where
  apiKey : String
  modelName : String
  baseUrl : String
  systemPrompt : String
  temperature : PyFloat
  maxTokens : Int
deriving DecidableEq, Repr

/-- Resolution of every configuration field from the environment
(module level of src/main.py, lines 25-44). -/
def resolveConfig (env : Env) : Config :=
  { apiKey := GOOGLE_API_KEY env
    modelName := MODEL_NAME env
    baseUrl := BASE_URL env
    systemPrompt := SYSTEM_PROMPT env
    temperature := TEMPERATURE env
    maxTokens := MAX_TOKENS env }

/-- Outcome of module-level startup: either a validated configuration or
the fatal `SystemExit` raised at line 48. -/
inductive StartupResult
  | ok (cfg : Config)
  | fatal (msg : String)
deriving DecidableEq, Repr

/-- Config resolution followed by the mandatory-key validation
(`if not GOOGLE_API_KEY: raise SystemExit("ERROR: Missing GOOGLE_API_KEY
in .env")`, lines 46-48). Runs before any function of the module is
called, hence before any agent construction or mode dispatch. -/
def startup (env : Env) : StartupResult :=
  let cfg := resolveConfig env
  if cfg.apiKey = "" then
    StartupResult.fatal "ERROR: Missing GOOGLE_API_KEY in .env"
  else
    StartupResult.ok cfg

/-! ## Agent results, effects and execution modes (lines 60-106) -/

/-- The result of a framework call `assistant.run(...)`: it may expose a
`content` attribute, and always has a string representation `str(result)`. -/
structure AgentResult where
  content : Option String
  repr : String

/-- Model of `getattr(result, "content", str(result))` (lines 87 and 105). -/
def extractReply (r : AgentResult) : String :=
  r.content.getD r.repr

/-- Observable effects of a run: agent constructions (`build_assistant`),
turn submissions (`assistant.run`, tagged with the agent's identity), and
printed lines. -/
inductive Effect
  | build (agentId : ℕ)
  | submit (agentId : ℕ) (input : String)
  | print (s : String)
deriving DecidableEq, Repr

/-- One line of interactive standard input: a text line, or the
`EOFError` / `KeyboardInterrupt` raised inside `input()`. An exhausted
event list behaves like end-of-input. -/
inductive InputEvent
  | line (s : String)
  | interrupt
deriving DecidableEq, Repr

/-- Model of `one_shot(prompt)` (lines 83-87): build one assistant, run the
prompt, return the extracted reply; paired with its effect trace. The
freshly built agent is identified as agent 0. -/
def one_shot (A : String → AgentResult) (prompt : String) : String × List Effect :=
  (extractReply (A prompt), [Effect.build 0, Effect.submit 0 prompt])

/-- Model of the `while True:` body of `interactive_loop` (lines 93-106), over the
remaining input events; the single assistant built before the loop is
agent 0. Each iteration prints the `input("\nYou: ")` prompt, then either
terminates on end-of-input/interrupt (printing the exit notice), or
strips the line: a sentinel (`exit`/`quit`, case-insensitive) prints the
farewell and terminates; any other line (the stripped text, empty
included) is submitted as a turn and the reply printed. -/
def loopBody (A : String → AgentResult) : List InputEvent → List Effect
  | [] =>
    [Effect.print "\nYou: ", Effect.print "\nExiting."]
  | InputEvent.interrupt :: _ =>
    [Effect.print "\nYou: ", Effect.print "\nExiting."]
  | InputEvent.line s :: rest =>
    let u := pyStrip s
    if pyLower u = "exit" ∨ pyLower u = "quit" then
      [Effect.print "\nYou: ", Effect.print "Goodbye."]
    else
      Effect.print "\nYou: " :: Effect.submit 0 u ::
        Effect.print ("\nAssistant: " ++ extractReply (A u)) :: loopBody A rest

/-- Model of `interactive_loop()` (lines 89-106): build exactly one assistant,
print the start banner, then run the loop over the input events. -/
def interactive_loop (A : String → AgentResult) (inputs : List InputEvent) : List Effect :=
  Effect.build 0 ::
    Effect.print "Interactive chat started. Type 'exit' or 'quit' to leave." ::
    loopBody A inputs

/-- Parsed command-line arguments: `--interactive` (store_true, default
off) and `--prompt` (string, default `""`). -/
structure Args where
  interactive : Bool
  prompt : String
deriving DecidableEq, Repr

/-- The usage text printed when no mode is selected (lines 123-126). -/
def usageEffects : List Effect :=
  [Effect.print "No mode selected.\n",
   Effect.print "Examples:",
   Effect.print "  python main.py --interactive",
   Effect.print "  python main.py --prompt \"Explain RAG in simple terms.\""]

/-- Model of `main()` dispatch (lines 108-127): interactive wins, else a truthy
(non-empty) prompt runs one-shot and prints its return value, else the
usage text is printed and the process exits via `sys.exit(1)`. The
returned pair is the effect trace and the process exit status. -/
def mainDispatch (A : String → AgentResult) (inputs : List InputEvent)
    (args : Args) : List Effect × ℕ :=
  if args.interactive then
    (interactive_loop A inputs, 0)
  else if args.prompt ≠ "" then
    ((one_shot A args.prompt).2 ++ [Effect.print (one_shot A args.prompt).1], 0)
  else
    (usageEffects, 1)

/-- A whole process run: module-level startup first (config resolution
and key validation; a `SystemExit` carrying a message prints it and
exits with status 1), then `main()`. -/
def runProgram (A : String → AgentResult) (inputs : List InputEvent)
    (env : Env) (args : Args) : List Effect × ℕ :=
  match startup env with
  | StartupResult.fatal msg => ([Effect.print msg], 1)
  | StartupResult.ok _ => mainDispatch A inputs args

/-- Turn submissions occurring in a trace, with their agent identity. -/
def submits (t : List Effect) : List (ℕ × String) :=
  t.filterMap fun e =>
    match e with
    | Effect.submit i s => some (i, s)
    | _ => none

/-- Number of agent constructions in a trace. -/
def buildCount (t : List Effect) : ℕ :=
  (t.filter fun e => match e with | Effect.build _ => true | _ => false).length

/-! ## Helper lemmas and concrete fixtures -/

/-- A concrete agent behaviour used by witnesses: every result exposes a
content field echoing the input. -/
def A0 : String → AgentResult :=
  fun s => { content := some ("re: " ++ s), repr := "TaskResult" }

/-- An environment with no variables set at all. -/
def env0 : Env := fun _ => none

lemma buildCount_nil : buildCount [] = 0 := rfl

lemma buildCount_cons (e : Effect) (t : List Effect) :
    buildCount (e :: t) =
      (match e with | Effect.build _ => 1 | _ => 0) + buildCount t := by
  cases e <;> simp [buildCount, List.filter, Nat.add_comm]

lemma submits_nil : submits [] = [] := rfl

lemma submits_cons (e : Effect) (t : List Effect) :
    submits (e :: t) =
      (match e with | Effect.submit i s => [(i, s)] | _ => []) ++ submits t := by
  cases e <;> simp [submits, List.filterMap]

lemma loopBody_buildCount (A : String → AgentResult) (l : List InputEvent) :
    buildCount (loopBody A l) = 0 := by
  induction l with
  | nil => simp [loopBody, buildCount_cons, buildCount_nil]
  | cons e rest ih =>
    cases e with
    | interrupt => simp [loopBody, buildCount_cons, buildCount_nil]
    | line s =>
      by_cases h : pyLower (pyStrip s) = "exit" ∨ pyLower (pyStrip s) = "quit"
      · simp [loopBody, h, buildCount_cons, buildCount_nil]
      · simp [loopBody, h, buildCount_cons, ih]

lemma loopBody_submits_zero (A : String → AgentResult) (l : List InputEvent) :
    ∀ p ∈ submits (loopBody A l), p.1 = 0 := by
  induction l with
  | nil => simp [loopBody, submits_cons, submits_nil]
  | cons e rest ih =>
    cases e with
    | interrupt => simp [loopBody, submits_cons, submits_nil]
    | line s =>
      by_cases h : pyLower (pyStrip s) = "exit" ∨ pyLower (pyStrip s) = "quit"
      · simp [loopBody, h, submits_cons, submits_nil]
      · intro p hp
        simp only [loopBody, h, if_false, submits_cons, List.mem_append] at hp
        rcases hp with hp | hp | hp
        · simp_all
        · simp_all
        · rcases hp with hp | hp
          · simp_all
          · exact ih p hp

/-! ## C1 -/

/-- C1: whenever the API key variable is missing, empty, or whitespace
only (empty after trimming), the process run fails with a non-zero exit
status, its entire output is the single message naming GOOGLE_API_KEY,
and no agent construction or turn submission (hence no mode) occurs. -/
theorem c1_missing_api_key_fails_fast (env : Env)
    (h : pyStrip ((env "GOOGLE_API_KEY").getD "") = "")
    (A : String → AgentResult) (inputs : List InputEvent) (args : Args) :
    (runProgram A inputs env args).2 ≠ 0 ∧
    (runProgram A inputs env args).1 =
      [Effect.print "ERROR: Missing GOOGLE_API_KEY in .env"] ∧
    buildCount (runProgram A inputs env args).1 = 0 ∧
    submits (runProgram A inputs env args).1 = [] := by
  have hk : GOOGLE_API_KEY env = "" := h
  simp [runProgram, startup, resolveConfig, hk, buildCount_cons, buildCount_nil,
    submits_cons, submits_nil]

/-- Witness for C1 at the empty environment. -/
theorem c1_missing_api_key_fails_fast_witness :
    pyStrip ((env0 "GOOGLE_API_KEY").getD "") = "" ∧
    (runProgram A0 [] env0 { interactive := false, prompt := "" }).2 ≠ 0 :=
  ⟨rfl, (c1_missing_api_key_fails_fast env0 rfl A0 []
    { interactive := false, prompt := "" }).1⟩

/-! ## C2 -/

/-- C2: the CLI dispatch selects exactly one of three outcomes, in
order: if the interactive flag is set, interactive mode runs (and the
supplied prompt text is ignored); else a non-empty prompt runs one-shot
mode, prints its return value and exits with status 0; else the usage
text is printed and the process exits with status 1. -/
theorem c2_cli_dispatch (A : String → AgentResult) (inputs : List InputEvent)
    (args : Args) :
    (args.interactive = true →
      mainDispatch A inputs args = (interactive_loop A inputs, 0) ∧
      ∀ p q, mainDispatch A inputs { interactive := true, prompt := p } =
             mainDispatch A inputs { interactive := true, prompt := q }) ∧
    (args.interactive = false → args.prompt ≠ "" →
      mainDispatch A inputs args =
        ((one_shot A args.prompt).2 ++ [Effect.print (one_shot A args.prompt).1], 0)) ∧
    (args.interactive = false → args.prompt = "" →
      mainDispatch A inputs args = (usageEffects, 1)) := by
  refine ⟨fun h => ⟨?_, fun p q => ?_⟩, fun h hp => ?_, fun h hp => ?_⟩
  · simp [mainDispatch, h]
  · simp [mainDispatch]
  · simp [mainDispatch, h, hp]
  · simp [mainDispatch, h, hp]

/-- Witness for C2: with both the interactive flag and a prompt set,
only interactive mode runs. -/
theorem c2_cli_dispatch_witness :
    mainDispatch A0 [] { interactive := true, prompt := "hello" } =
      (interactive_loop A0 [], 0) :=
  ((c2_cli_dispatch A0 [] { interactive := true, prompt := "hello" }).1 rfl).1

/-! ## C3 -/

/-- C3: a temperature or max-tokens environment value that fails to
parse resolves silently to the hardcoded default (0.3 respectively
1024); a value that parses resolves to the parsed value; and a parse
failure never fails startup (startup succeeds whenever the API key is
non-empty). -/
theorem c3_numeric_leniency (env : Env) (s t : String)
    (hT : env "TEMPERATURE" = some s) (hM : env "MAX_TOKENS" = some t) :
    (pyFloat s = none → TEMPERATURE env = PyFloat.finite (3 / 10)) ∧
    (∀ v, pyFloat s = some v → TEMPERATURE env = v) ∧
    (pyInt t = none → MAX_TOKENS env = 1024) ∧
    (∀ n, pyInt t = some n → MAX_TOKENS env = n) ∧
    (GOOGLE_API_KEY env ≠ "" →
      startup env = StartupResult.ok (resolveConfig env)) := by
  refine ⟨fun h => ?_, fun v h => ?_, fun h => ?_, fun n h => ?_, fun h => ?_⟩
  · simp [TEMPERATURE, getenvD, hT, h]
  · simp [TEMPERATURE, getenvD, hT, h]
  · simp [MAX_TOKENS, getenvD, hM, h]
  · simp [MAX_TOKENS, getenvD, hM, h]
  · simp [startup, resolveConfig, h]

/-- A concrete environment with a valid key but malformed numeric
settings. -/
def envC3 : Env := fun n =>
  if n = "GOOGLE_API_KEY" then some "k"
  else if n = "TEMPERATURE" then some "abc"
  else if n = "MAX_TOKENS" then some "xyz"
  else none

/-- Witness for C3: `TEMPERATURE=abc` and `MAX_TOKENS=xyz` resolve to
the defaults without failing startup. -/
theorem c3_numeric_leniency_witness :
    pyFloat "abc" = none ∧ pyInt "xyz" = none ∧
    TEMPERATURE envC3 = PyFloat.finite (3 / 10) ∧
    MAX_TOKENS envC3 = 1024 ∧
    startup envC3 = StartupResult.ok (resolveConfig envC3) := by
  have h := c3_numeric_leniency envC3 "abc" "xyz" rfl rfl
  exact ⟨by decide, by decide, h.1 (by decide), h.2.2.1 (by decide),
    h.2.2.2.2 (by decide)⟩

/-! ## C4 -/

/-- C4: any input line whose trimmed, lowercased form is `exit` or
`quit` prints the farewell and terminates the loop without submitting a
turn; the input sequences `["hello", "exit"]` and `["hello", "quit"]`
produce identical traces with exactly one submitted turn `"hello"` and
one printed reply before graceful termination. -/
theorem c4_sentinel_terminates (A : String → AgentResult) (s : String)
    (rest : List InputEvent)
    (h : pyLower (pyStrip s) = "exit" ∨ pyLower (pyStrip s) = "quit") :
    loopBody A (InputEvent.line s :: rest) =
      [Effect.print "\nYou: ", Effect.print "Goodbye."] ∧
    submits (loopBody A (InputEvent.line s :: rest)) = [] ∧
    interactive_loop A [InputEvent.line "hello", InputEvent.line "exit"] =
      [Effect.build 0,
       Effect.print "Interactive chat started. Type 'exit' or 'quit' to leave.",
       Effect.print "\nYou: ",
       Effect.submit 0 "hello",
       Effect.print ("\nAssistant: " ++ extractReply (A "hello")),
       Effect.print "\nYou: ",
       Effect.print "Goodbye."] ∧
    interactive_loop A [InputEvent.line "hello", InputEvent.line "quit"] =
      interactive_loop A [InputEvent.line "hello", InputEvent.line "exit"] ∧
    submits (interactive_loop A [InputEvent.line "hello", InputEvent.line "exit"]) =
      [(0, "hello")] := by
  have h1 : ¬pyLower (pyStrip "hello") = "exit" := by decide
  have h2 : ¬pyLower (pyStrip "hello") = "quit" := by decide
  have h3 : ¬pyLower "hello" = "exit" := by decide
  have h4 : ¬pyLower "hello" = "quit" := by decide
  have hexit : pyLower (pyStrip "exit") = "exit" ∨
      pyLower (pyStrip "exit") = "quit" := by decide
  have hquit : pyLower (pyStrip "quit") = "exit" ∨
      pyLower (pyStrip "quit") = "quit" := by decide
  have hs : pyStrip "hello" = "hello" := by decide
  refine ⟨by simp [loopBody, h], by simp [loopBody, h, submits_cons, submits_nil], ?_, ?_, ?_⟩
  · simp [interactive_loop, loopBody, h1, h2, h3, h4, hexit, hs]
  · simp [interactive_loop, loopBody, h1, h2, h3, h4, hexit, hquit, hs]
  · simp [interactive_loop, loopBody, h1, h2, h3, h4, hexit, hs, submits_cons, submits_nil]

/-- Witness for C4 at the sentinel line `" Exit "` (mixed case, padded). -/
theorem c4_sentinel_terminates_witness :
    (pyLower (pyStrip " Exit ") = "exit" ∨ pyLower (pyStrip " Exit ") = "quit") ∧
    loopBody A0 [InputEvent.line " Exit "] =
      [Effect.print "\nYou: ", Effect.print "Goodbye."] :=
  ⟨by decide, (c4_sentinel_terminates A0 " Exit " [] (by decide)).1⟩

/-! ## C5 -/

/-- C5: the reply printed for an agent result is its content field when
present and the string representation of the whole result otherwise, and
this same extraction rule is what one-shot mode returns and what the
interactive loop prints for a non-sentinel line. -/
theorem c5_reply_extraction (A : String → AgentResult) (prompt : String)
    (r : AgentResult) :
    (∀ c, r.content = some c → extractReply r = c) ∧
    (r.content = none → extractReply r = r.repr) ∧
    (one_shot A prompt).1 = extractReply (A prompt) ∧
    (∀ s rest, ¬(pyLower (pyStrip s) = "exit" ∨ pyLower (pyStrip s) = "quit") →
      loopBody A (InputEvent.line s :: rest) =
        Effect.print "\nYou: " :: Effect.submit 0 (pyStrip s) ::
          Effect.print ("\nAssistant: " ++ extractReply (A (pyStrip s))) ::
          loopBody A rest) := by
  refine ⟨fun c hc => ?_, fun hn => ?_, rfl, fun s rest hs => ?_⟩
  · simp [extractReply, hc]
  · simp [extractReply, hn]
  · simp [loopBody, hs]

/-- Witness for C5: a content-bearing result yields its content, a
content-less result yields its string representation, and the
interactive loop prints the extracted reply for `"hi"`. -/
theorem c5_reply_extraction_witness :
    extractReply { content := some "c", repr := "r" } = "c" ∧
    extractReply { content := none, repr := "r" } = "r" ∧
    loopBody A0 [InputEvent.line "hi"] =
      Effect.print "\nYou: " :: Effect.submit 0 (pyStrip "hi") ::
        Effect.print ("\nAssistant: " ++ extractReply (A0 (pyStrip "hi"))) ::
        loopBody A0 [] :=
  ⟨(c5_reply_extraction A0 "p" { content := some "c", repr := "r" }).1 "c" rfl,
   (c5_reply_extraction A0 "p" { content := none, repr := "r" }).2.1 rfl,
   (c5_reply_extraction A0 "p" { content := none, repr := "r" }).2.2.2
     "hi" [] (by decide)⟩

/-! ## C6 -/

/-- C6: end-of-input or an interrupt while reading prints the exit
notice and terminates the loop with no further turns submitted, and an
interactive-mode run always exits with status 0; this holds even when no
sentinel was ever entered, as the concrete run `["hello", interrupt]`
shows. -/
theorem c6_eof_graceful (A : String → AgentResult) (rest inputs : List InputEvent)
    (args : Args) (h : args.interactive = true) :
    loopBody A (InputEvent.interrupt :: rest) =
      [Effect.print "\nYou: ", Effect.print "\nExiting."] ∧
    loopBody A [] = [Effect.print "\nYou: ", Effect.print "\nExiting."] ∧
    submits (loopBody A (InputEvent.interrupt :: rest)) = [] ∧
    (mainDispatch A inputs args).2 = 0 ∧
    interactive_loop A [InputEvent.line "hello", InputEvent.interrupt] =
      [Effect.build 0,
       Effect.print "Interactive chat started. Type 'exit' or 'quit' to leave.",
       Effect.print "\nYou: ",
       Effect.submit 0 "hello",
       Effect.print ("\nAssistant: " ++ extractReply (A "hello")),
       Effect.print "\nYou: ",
       Effect.print "\nExiting."] := by
  have h3 : ¬pyLower "hello" = "exit" := by decide
  have h4 : ¬pyLower "hello" = "quit" := by decide
  have hs : pyStrip "hello" = "hello" := by decide
  refine ⟨by simp [loopBody], rfl, by simp [loopBody, submits_cons, submits_nil],
    by simp [mainDispatch, h], by simp [interactive_loop, loopBody, h3, h4, hs]⟩

/-- Witness for C6 in interactive mode with an immediate interrupt. -/
theorem c6_eof_graceful_witness :
    loopBody A0 [InputEvent.interrupt] =
      [Effect.print "\nYou: ", Effect.print "\nExiting."] ∧
    (mainDispatch A0 [InputEvent.interrupt]
      { interactive := true, prompt := "" }).2 = 0 :=
  ⟨(c6_eof_graceful A0 [] [InputEvent.interrupt]
      { interactive := true, prompt := "" } rfl).1,
   (c6_eof_graceful A0 [] [InputEvent.interrupt]
      { interactive := true, prompt := "" } rfl).2.2.2.1⟩

/-! ## C7 -/

/-- C7: each execution mode constructs exactly one agent — one-shot
builds one agent for its single turn, interactive builds one agent as
its very first action — and every turn submitted in either mode goes to
that same agent (agent 0). -/
theorem c7_single_agent (A : String → AgentResult) (prompt : String)
    (inputs : List InputEvent) :
    buildCount (one_shot A prompt).2 = 1 ∧
    submits (one_shot A prompt).2 = [(0, prompt)] ∧
    buildCount (interactive_loop A inputs) = 1 ∧
    (interactive_loop A inputs).head? = some (Effect.build 0) ∧
    (∀ p ∈ submits (interactive_loop A inputs), p.1 = 0) := by
  refine ⟨?_, ?_, ?_, rfl, ?_⟩
  · simp [one_shot, buildCount_cons, buildCount_nil]
  · simp [one_shot, submits_cons, submits_nil]
  · simp [interactive_loop, buildCount_cons, loopBody_buildCount]
  · intro p hp
    simp only [interactive_loop, submits_cons, List.nil_append] at hp
    exact loopBody_submits_zero A inputs p hp

/-- Witness for C7 on a concrete one-shot run and a concrete two-line
interactive session. -/
theorem c7_single_agent_witness :
    buildCount (one_shot A0 "hi").2 = 1 ∧
    buildCount (interactive_loop A0 [InputEvent.line "a", InputEvent.line "b"]) = 1 :=
  ⟨(c7_single_agent A0 "hi" [InputEvent.line "a", InputEvent.line "b"]).1,
   (c7_single_agent A0 "hi" [InputEvent.line "a", InputEvent.line "b"]).2.2.1⟩

/-! ## C8 -/

/-- A concrete environment exhibiting the untrimmed system prompt. -/
def envC8 : Env := fun n =>
  if n = "GOOGLE_API_KEY" then some "k"
  else if n = "SYSTEM_PROMPT" then some " hi "
  else none

/-- Counterexample to C8: the system prompt variable set to `" hi "`
(present, non-empty) resolves to `" hi "` verbatim, not to its trimmed
form `"hi"` as the claim's per-field trimming rule demands. -/
theorem c8_counterexample :
    envC8 "SYSTEM_PROMPT" = some " hi " ∧
    (" hi " : String) ≠ "" ∧
    pyStrip " hi " = "hi" ∧
    SYSTEM_PROMPT envC8 = " hi " ∧
    SYSTEM_PROMPT envC8 ≠ pyStrip " hi " := by
  refine ⟨rfl, by decide, by decide, by decide, by decide⟩

/-- C8 (amended): a present, non-empty environment value is used for
each field after that field's own post-processing — trimmed for the API
key and model name, trailing slashes stripped (but no whitespace
trimming) for the base URL, verbatim for the system prompt — and the
hardcoded default is used when the variable is missing or empty; the
numeric fields resolve by parse-or-default. -/
theorem c8_field_resolution (env : Env) :
    GOOGLE_API_KEY env = pyStrip ((env "GOOGLE_API_KEY").getD "") ∧
    (∀ s, env "GOOGLE_MODEL" = some s → s ≠ "" → MODEL_NAME env = pyStrip s) ∧
    ((env "GOOGLE_MODEL" = none ∨ env "GOOGLE_MODEL" = some "") →
      MODEL_NAME env = "gemini-2.0-flash") ∧
    (∀ s, env "GOOGLE_OPENAI_COMPAT_BASE_URL" = some s → s ≠ "" →
      BASE_URL env = pyRstripSlash s) ∧
    ((env "GOOGLE_OPENAI_COMPAT_BASE_URL" = none ∨
        env "GOOGLE_OPENAI_COMPAT_BASE_URL" = some "") →
      BASE_URL env = "https://generativelanguage.googleapis.com/v1beta/openai") ∧
    (∀ s, env "SYSTEM_PROMPT" = some s → s ≠ "" → SYSTEM_PROMPT env = s) ∧
    ((env "SYSTEM_PROMPT" = none ∨ env "SYSTEM_PROMPT" = some "") →
      SYSTEM_PROMPT env = DEFAULT_SYSTEM_PROMPT) ∧
    TEMPERATURE env = (pyFloat ((env "TEMPERATURE").getD "0.3")).getD
      (PyFloat.finite (3 / 10)) ∧
    MAX_TOKENS env = (pyInt ((env "MAX_TOKENS").getD "1024")).getD 1024 := by
  refine ⟨rfl, fun s hs hne => ?_, fun h => ?_, fun s hs hne => ?_, fun h => ?_,
    fun s hs hne => ?_, fun h => ?_, rfl, rfl⟩
  · simp [ MODEL_NAME, pyOr, hs, hne]
  · rcases h with h | h <;> rw [ MODEL_NAME, h] <;> decide
  · simp [ BASE_URL, pyOr, hs, hne]
  · rcases h with h | h <;> rw [ BASE_URL, h] <;> decide
  · simp [ SYSTEM_PROMPT, pyOr, hs, hne]
  · rcases h with h | h <;> rw [ SYSTEM_PROMPT, h] <;> rfl

/-- Witness for C8 (amended): a padded model name is trimmed while a
padded system prompt is kept verbatim, and a missing model name falls
back to the default. -/
theorem c8_field_resolution_witness :
    MODEL_NAME envC8 = "gemini-2.0-flash" ∧
    SYSTEM_PROMPT envC8 = " hi " :=
  ⟨(c8_field_resolution envC8).2.2.1 (Or.inl rfl),
   (c8_field_resolution envC8).2.2.2.2.2.1 " hi " rfl (by decide)⟩

/-! ## C9 -/

/-- A concrete environment with `MAX_TOKENS=0`. -/
def envC9 : Env := fun n =>
  if n = "GOOGLE_API_KEY" then some "k"
  else if n = "MAX_TOKENS" then some "0"
  else none

/-- Counterexample to C9: `MAX_TOKENS=0` parses successfully, so the
resolved max-tokens value is 0, which is not strictly positive. -/
theorem c9_counterexample :
    envC9 "MAX_TOKENS" = some "0" ∧
    pyInt "0" = some 0 ∧
    MAX_TOKENS envC9 = 0 ∧
    ¬(0 < MAX_TOKENS envC9) := by
  refine ⟨rfl, by decide, by decide, by decide⟩

/-- C9 (amended): the resolved max-tokens value is either the hardcoded
default 1024 or a successfully parsed environment value used verbatim
(which may be zero or negative); strict positivity is guaranteed
whenever the variable is missing or fails to parse, since the default
1024 is then used. -/
theorem c9_max_tokens_resolution (env : Env) :
    (MAX_TOKENS env = 1024 ∨
      ∃ s, env "MAX_TOKENS" = some s ∧ pyInt s = some (MAX_TOKENS env)) ∧
    ((env "MAX_TOKENS" = none ∨ pyInt ((env "MAX_TOKENS").getD "1024") = none) →
      MAX_TOKENS env = 1024 ∧ 0 < MAX_TOKENS env) := by
  constructor
  · cases hv : env "MAX_TOKENS" with
    | none =>
      refine Or.inl ?_
      rw [ MAX_TOKENS, getenvD, hv]
      decide
    | some s =>
      cases hp : pyInt s with
      | none =>
        refine Or.inl ?_
        rw [ MAX_TOKENS, getenvD, hv]
        simp [hp]
      | some n =>
        refine Or.inr ⟨s, rfl, ?_⟩
        rw [ MAX_TOKENS, getenvD, hv]
        simp [hp]
  · intro h
    cases hv : env "MAX_TOKENS" with
    | none =>
      rw [ MAX_TOKENS, getenvD, hv]
      exact ⟨by decide, by decide⟩
    | some s =>
      rcases h with h | h
      · rw [hv] at h
        exact absurd h (by simp)
      · rw [hv] at h
        simp only [Option.getD_some] at h
        rw [ MAX_TOKENS, getenvD, hv]
        simp [h]

/-- Witness for C9 (amended): with no environment at all the resolved
value is the positive default. -/
theorem c9_max_tokens_resolution_witness :
    MAX_TOKENS env0 = 1024 ∧ 0 < MAX_TOKENS env0 :=
  (c9_max_tokens_resolution env0).2 (Or.inl rfl)

/-! ## C10 -/

/-- C10: an input line that is empty or whitespace-only strips to the
empty string, which is not a sentinel and is not skipped: it is
submitted as a regular turn, its reply is printed, and the loop
continues, exactly as for non-empty input. -/
theorem c10_empty_input_is_a_turn (A : String → AgentResult) (s : String)
    (rest : List InputEvent) (h : pyStrip s = "") :
    loopBody A (InputEvent.line s :: rest) =
      Effect.print "\nYou: " :: Effect.submit 0 "" ::
        Effect.print ("\nAssistant: " ++ extractReply (A "")) ::
        loopBody A rest := by
  have h1 : ¬pyLower ("" : String) = "exit" := by decide
  have h2 : ¬pyLower ("" : String) = "quit" := by decide
  simp [loopBody, h, h1, h2]

/-- Witness for C10 at the whitespace-only line `"   "`. -/
theorem c10_empty_input_is_a_turn_witness :
    pyStrip "   " = "" ∧
    loopBody A0 [InputEvent.line "   "] =
      Effect.print "\nYou: " :: Effect.submit 0 "" ::
        Effect.print ("\nAssistant: " ++ extractReply (A0 "")) ::
        loopBody A0 [] :=
  ⟨by decide, c10_empty_input_is_a_turn A0 "   " [] (by decide)⟩
